import Mathlib

set_option maxRecDepth 4096

/-! Shallow embedding of the go-ftw stage-execution engine: the runner
package (src/unnamed/part_001) and the waflog package
(src/waflog/waflog.go).  External collaborator packages of the same
repository (check, ftwhttp, test, utils, config) are not under src and
are modelled abstractly from the spec where needed, with doc comments
saying so. -/

namespace GoFtw

/-- Outcome kinds of a stage, mirroring the runner TestResult values used
in displayResult and addResultToStats. -/
inductive TestResult where
  | Success
  | Failed
  | Skipped
  | Ignored
  | ForceFail
  | ForcePass
deriving DecidableEq, Repr

/-- Modelled from the spec: ftwhttp.Header (not under src) is a map from
header names to values; association-list representation. -/
abbrev Header := List (String × String)

/-- Modelled from the spec: ftwhttp Header lookup; absent keys read as
the empty string (Go map read of a missing key). -/
def Header.get (h : Header) (k : String) : String :=
  match List.find? (fun e => e.1 == k) h with
  | some e => e.2
  | none => ""

/-- Modelled from the spec: ftwhttp Header write (Go map assignment). -/
def Header.set (h : Header) (k v : String) : Header :=
  (k, v) :: List.filter (fun e => e.1 != k) h

/-- The test.Input structure (test package, collaborator): the fields the
runner reads.  Pointer-valued Go fields become Option. -/
structure Input where
  destAddr : Option String
  port : Option Int
  protocol : Option String
  method : Option String
  uri : Option String
  version : Option String
  headers : Option Header
  data : Option String
  encodedRequest : String
  rawRequest : String
  stopMagic : Bool
deriving DecidableEq, Repr

/-- config.FTWConfig.TestOverride.Input (config package, collaborator):
the three optional global input overrides. -/
structure InputOverrides where
  port : Option Int
  destAddr : Option String
  protocol : Option String
deriving DecidableEq, Repr

/-- applyInputOverride, src/unnamed/part_001 lines 379-398: writes each
configured global override into the test input; when the address is
overridden, injects a Host header unless one is already present.  Always
returns a nil error (second component none). -/
def applyInputOverride (ov : InputOverrides) (t0 : Input) : Input × Option String :=
  let t1 := match ov.port with
    | some p => { t0 with port := some p }
    | none => t0
  let t2 := match ov.destAddr with
    | some a =>
      let hs : Header := t1.headers.getD []
      let hs2 : Header := if Header.get hs "Host" == "" then Header.set hs "Host" a else hs
      { t1 with destAddr := some a, headers := some hs2 }
    | none => t1
  let t3 := match ov.protocol with
    | some p => { t2 with protocol := some p }
    | none => t2
  (t3, none)

/-- Modelled from the spec: utils.IsNotEmpty (utils package, not under
src) on an optional string field: present and non-empty. -/
def isNotEmpty (d : Option String) : Bool :=
  match d with
  | some s => s != ""
  | none => false

/-- checkTestSanity, src/unnamed/part_001 lines 267-271: true when more
than one of the three request-body forms is set. -/
def checkTestSanity (testRequest : Input) : Bool :=
  (isNotEmpty testRequest.data && testRequest.encodedRequest != "") ||
  (isNotEmpty testRequest.data && testRequest.rawRequest != "") ||
  (testRequest.encodedRequest != "" && testRequest.rawRequest != "")

/-- Modelled from the spec: the check package (not under src) exposes the
run mode, the forced-result configuration, and boolean assertions
configured from the stage expected output and the run configuration. -/
structure FTWCheck where
  cloudMode : Bool
  forcedIgnore : String → Bool
  forcedFail : String → Bool
  forcedPass : String → Bool
  assertExpectError : Bool
  assertStatus : Nat → Bool
  assertResponseContains : String → Bool
  assertLogContains : Bool
  assertNoLogContains : Bool

/-- The parts of an ftwhttp.Response the result evaluator reads. -/
structure Response where
  statusCode : Nat
  body : String
deriving DecidableEq, Repr

/-- checkResult, src/unnamed/part_001 lines 307-342: the precedence-ordered
result evaluation.  The Go `if response != nil` guard around the status
and body checks is flattened: both checks read false on a nil response. -/
def checkResult (c : FTWCheck) (response : Option Response) (responseErr : Bool) : TestResult :=
  if responseErr && c.assertExpectError then .Success
  else if responseErr then .Failed
  else if (match response with | some r => c.assertStatus r.statusCode | none => false) then .Success
  else if (match response with | some r => c.assertResponseContains r.body | none => false) then .Success
  else if c.assertLogContains then .Success
  else if c.assertNoLogContains then .Success
  else .Failed

/-- overriddenTestResult, src/unnamed/part_001 lines 290-304: Failed is
the sentinel for "no override configured". -/
def overriddenTestResult (c : FTWCheck) (id : String) : TestResult :=
  if c.forcedIgnore id then .Ignored
  else if c.forcedFail id then .ForceFail
  else if c.forcedPass id then .ForcePass
  else .Failed

/-- Regexp matching (regexp package) abstracted: an optional predicate on
titles stands for an optional compiled pattern. -/
def optMatch (o : Option (String → Bool)) (title : String) : Bool :=
  match o with
  | some f => f title
  | none => false

/-- needToSkipTest, src/unnamed/part_001 lines 233-265. -/
def needToSkipTest (inc exc : Option (String → Bool)) (title : String) (enabled : Bool) : Bool :=
  if !enabled then true
  else if optMatch inc title then false
  else
    let result := false
    let result := if optMatch exc title then true else result
    let result := if (match inc with | some f => !(f title) | none => false) then true else result
    result

/-- Outcome of one probe attempt inside markAndFlush: the connection
step, the send step, and the log query are collaborator calls whose
results the environment supplies per attempt. -/
inductive ProbeAttempt where
  | connFail
  | sendFail
  | noMarker
  | markerFound (line : String)
deriving DecidableEq, Repr

/-- Errors markAndFlush can return, src/unnamed/part_001 lines 216-230. -/
inductive MarkerFlushError where
  | probeConnectFail
  | probeSendFail
  | markerNotFound (logFile : String)
deriving DecidableEq, Repr

/-- Constant head of the marker-not-found message, line 230. -/
def markerNotFoundHead : String :=
  "can\x27t find log marker. Am I reading the correct log? Log file: "

/-- Error message text of each markAndFlush error (destination formatting
of the first two elided; the marker-not-found text is modelled verbatim,
line 230). -/
def MarkerFlushError.message : MarkerFlushError → String
  | .probeConnectFail => "ftw/run: can\x27t connect to destination"
  | .probeSendFail => "ftw/run: failed sending request to destination"
  | .markerNotFound f => markerNotFoundHead ++ f

/-- The retry loop body of markAndFlush, lines 214-229: fuel counts the
remaining attempts, i indexes the current attempt. -/
def markAndFlushAux (fileName : String) (attempts : Nat → ProbeAttempt) :
    Nat → Nat → Except MarkerFlushError String
  | _, 0 => .error (.markerNotFound fileName)
  | i, fuel + 1 =>
    match attempts i with
    | .connFail => .error .probeConnectFail
    | .sendFail => .error .probeSendFail
    | .markerFound line => .ok line
    | .noMarker => markAndFlushAux fileName attempts (i + 1) fuel

/-- The fixed probe budget, line 214 (`for range [20]int{}`). -/
def retryBudget : Nat := 20

/-- markAndFlush, src/unnamed/part_001 lines 193-231, with the per-attempt
collaborator outcomes supplied by `attempts`. -/
def markAndFlush (fileName : String) (attempts : Nat → ProbeAttempt) :
    Except MarkerFlushError String :=
  markAndFlushAux fileName attempts 0 retryBudget

/-- Client operations performed by one probe attempt: connection only when
the connection fails, connection plus send otherwise. -/
def probeOps : ProbeAttempt → Nat
  | .connFail => 1
  | _ => 2

/-- Client operations performed by the markAndFlush loop. -/
def markAndFlushOpsAux (attempts : Nat → ProbeAttempt) : Nat → Nat → Nat
  | _, 0 => 0
  | i, fuel + 1 =>
    match attempts i with
    | .noMarker => 2 + markAndFlushOpsAux attempts (i + 1) fuel
    | a => probeOps a

/-- Total client operations of one markAndFlush call. -/
def markAndFlushOps (attempts : Nat → ProbeAttempt) : Nat :=
  markAndFlushOpsAux attempts 0 retryBudget

/-- Errors RunStage can return to its caller, lines 119, 141, 151, 159,
165 of src/unnamed/part_001. -/
inductive RunnerError where
  | badTestRequest
  | startMarkerFail (e : MarkerFlushError)
  | connectFail
  | sendFail
  | endMarkerFail (e : MarkerFlushError)
deriving DecidableEq, Repr

/-- One stage together with the outcomes of its collaborator calls: the
stage input and expected-output error flag (test package), the per-stage
check object, the probe outcomes of the two markAndFlush calls, and the
connection/send outcomes of the real request. -/
structure StageSpec where
  input : Input
  expectError : Bool
  check : FTWCheck
  startAttempts : Nat → ProbeAttempt
  endAttempts : Nat → ProbeAttempt
  connErr : Bool
  responseErr : Bool
  response : Option Response
  rtt : Nat
  stageTime : Nat

/-- Observable effects of one RunStage call: the returned error, the
results recorded via addResultToStats, the Stats.Run increments, the
number of client network operations, the arguments of SetStartMarker and
SetEndMarker (none = never called, some none = called with nil), and the
durations passed to displayResult. -/
structure StageReport where
  err : Option RunnerError
  recorded : List TestResult
  runInc : Nat
  networkOps : Nat
  startMarkerSet : Option (Option String)
  endMarkerSet : Option (Option String)
  displayedTime : Option (Nat × Nat)
deriving DecidableEq, Repr

/-- RunStage lines 171-189: result evaluation, stats recording, display. -/
def stageFinish (s : StageSpec) (sm em : Option (Option String)) (ops : Nat) : StageReport :=
  let testResult := checkResult s.check s.response s.responseErr
  { err := none, recorded := [testResult], runInc := 1, networkOps := ops,
    startMarkerSet := sm, endMarkerSet := em, displayedTime := some (s.rtt, s.stageTime) }

/-- RunStage lines 162-169: end-marker acquisition in non-cloud mode, with
its abort guarded by the expected-error flag, then the finish phase. -/
def stageEndPhase (fileName : String) (s : StageSpec) (sm : Option (Option String))
    (ops : Nat) : StageReport :=
  if s.check.cloudMode then stageFinish s sm none ops
  else
    let endOps := markAndFlushOps s.endAttempts
    match markAndFlush fileName s.endAttempts with
    | .error e =>
      if !s.expectError then
        { err := some (.endMarkerFail e), recorded := [], runInc := 0,
          networkOps := ops + endOps, startMarkerSet := sm, endMarkerSet := none,
          displayedTime := none }
      else stageFinish s sm (some none) (ops + endOps)
    | .ok m => stageFinish s sm (some (some m)) (ops + endOps)

/-- RunStage lines 146-160: the real request (connection, send), each
abort guarded by the expected-error flag, then the end-marker phase. -/
def stageRequestPhase (fileName : String) (s : StageSpec) (sm : Option (Option String))
    (ops : Nat) : StageReport :=
  if s.connErr && !s.expectError then
    { err := some .connectFail, recorded := [], runInc := 0, networkOps := ops + 1,
      startMarkerSet := sm, endMarkerSet := none, displayedTime := none }
  else if s.responseErr && !s.expectError then
    { err := some .sendFail, recorded := [], runInc := 0, networkOps := ops + 2,
      startMarkerSet := sm, endMarkerSet := none, displayedTime := none }
  else stageEndPhase fileName s sm (ops + 2)

/-- RunStage lines 138-144: start-marker acquisition in non-cloud mode,
its abort guarded by the expected-error flag; on a tolerated failure
SetStartMarker is still called with nil. -/
def stageStartPhase (fileName : String) (s : StageSpec) : StageReport :=
  if s.check.cloudMode then stageRequestPhase fileName s none 0
  else
    let ops := markAndFlushOps s.startAttempts
    match markAndFlush fileName s.startAttempts with
    | .error e =>
      if !s.expectError then
        { err := some (.startMarkerFail e), recorded := [], runInc := 0, networkOps := ops,
          startMarkerSet := none, endMarkerSet := none, displayedTime := none }
      else stageRequestPhase fileName s (some none) ops
    | .ok m => stageRequestPhase fileName s (some (some m)) ops

/-- RunStage, src/unnamed/part_001 lines 106-191: input override, sanity
check, forced-result short circuit (recorded with zero durations and no
network activity), then the marker/request/evaluation pipeline. -/
def RunStage (logFileName : String) (ov : InputOverrides) (title : String)
    (s : StageSpec) : StageReport :=
  if checkTestSanity (applyInputOverride ov s.input).1 then
    { err := some .badTestRequest, recorded := [], runInc := 0, networkOps := 0,
      startMarkerSet := none, endMarkerSet := none, displayedTime := none }
  else if overriddenTestResult s.check title ≠ TestResult.Failed then
    { err := none, recorded := [overriddenTestResult s.check title], runInc := 0,
      networkOps := 0, startMarkerSet := none, endMarkerSet := none,
      displayedTime := some (0, 0) }
  else stageStartPhase logFileName s

/-- Chronological record of one run fragment: all addResultToStats calls
in order, all Stats.Run increments, the number of RunStage invocations,
and the first stage-aborting error, if any. -/
structure RunTrace where
  recorded : List TestResult
  runInc : Nat
  stagesExecuted : Nat
  err : Option RunnerError
deriving DecidableEq, Repr

/-- The empty run fragment. -/
def RunTrace.empty : RunTrace :=
  { recorded := [], runInc := 0, stagesExecuted := 0, err := none }

/-- The stage loop of RunTest, src/unnamed/part_001 lines 90-95: a stage
error aborts immediately and propagates. -/
def runStages (logFileName : String) (ov : InputOverrides) (title : String) :
    List StageSpec → RunTrace
  | [] => RunTrace.empty
  | s :: rest =>
    match (RunStage logFileName ov title s).err with
    | some e =>
      { recorded := (RunStage logFileName ov title s).recorded,
        runInc := (RunStage logFileName ov title s).runInc,
        stagesExecuted := 1, err := some e }
    | none =>
      { recorded := (RunStage logFileName ov title s).recorded ++
          (runStages logFileName ov title rest).recorded,
        runInc := (RunStage logFileName ov title s).runInc +
          (runStages logFileName ov title rest).runInc,
        stagesExecuted := 1 + (runStages logFileName ov title rest).stagesExecuted,
        err := (runStages logFileName ov title rest).err }

/-- One test case: a title and its stages (test package shape). -/
structure TestCaseM where
  title : String
  stages : List StageSpec

/-- One test file: the per-file enabled flag and its test cases. -/
structure FTWTestM where
  enabled : Bool
  cases : List TestCaseM

/-- The test-case loop of RunTest, src/unnamed/part_001 lines 72-96: a
skipped case records Skipped and runs no stage; a stage error aborts the
remaining cases. -/
def runTestCases (logFileName : String) (ov : InputOverrides)
    (inc exc : Option (String → Bool)) (enabled : Bool) :
    List TestCaseM → RunTrace
  | [] => RunTrace.empty
  | c :: rest =>
    if needToSkipTest inc exc c.title enabled then
      { recorded :=
          TestResult.Skipped :: (runTestCases logFileName ov inc exc enabled rest).recorded,
        runInc := (runTestCases logFileName ov inc exc enabled rest).runInc,
        stagesExecuted := (runTestCases logFileName ov inc exc enabled rest).stagesExecuted,
        err := (runTestCases logFileName ov inc exc enabled rest).err }
    else
      match (runStages logFileName ov c.title c.stages).err with
      | some e =>
        { recorded := (runStages logFileName ov c.title c.stages).recorded,
          runInc := (runStages logFileName ov c.title c.stages).runInc,
          stagesExecuted := (runStages logFileName ov c.title c.stages).stagesExecuted,
          err := some e }
      | none =>
        { recorded := (runStages logFileName ov c.title c.stages).recorded ++
            (runTestCases logFileName ov inc exc enabled rest).recorded,
          runInc := (runStages logFileName ov c.title c.stages).runInc +
            (runTestCases logFileName ov inc exc enabled rest).runInc,
          stagesExecuted := (runStages logFileName ov c.title c.stages).stagesExecuted +
            (runTestCases logFileName ov inc exc enabled rest).stagesExecuted,
          err := (runTestCases logFileName ov inc exc enabled rest).err }

/-- RunTest, src/unnamed/part_001 lines 69-99, for one test file. -/
def RunTest (logFileName : String) (ov : InputOverrides)
    (inc exc : Option (String → Bool)) (tc : FTWTestM) : RunTrace :=
  runTestCases logFileName ov inc exc tc.enabled tc.cases

/-- The test loop of Run, src/unnamed/part_001 lines 53-57: an error from
RunTest aborts the whole run. -/
def runTests (logFileName : String) (ov : InputOverrides)
    (inc exc : Option (String → Bool)) : List FTWTestM → RunTrace
  | [] => RunTrace.empty
  | tc :: rest =>
    match (RunTest logFileName ov inc exc tc).err with
    | some e =>
      { recorded := (RunTest logFileName ov inc exc tc).recorded,
        runInc := (RunTest logFileName ov inc exc tc).runInc,
        stagesExecuted := (RunTest logFileName ov inc exc tc).stagesExecuted,
        err := some e }
    | none =>
      { recorded := (RunTest logFileName ov inc exc tc).recorded ++
          (runTests logFileName ov inc exc rest).recorded,
        runInc := (RunTest logFileName ov inc exc tc).runInc +
          (runTests logFileName ov inc exc rest).runInc,
        stagesExecuted := (RunTest logFileName ov inc exc tc).stagesExecuted +
          (runTests logFileName ov inc exc rest).stagesExecuted,
        err := (runTests logFileName ov inc exc rest).err }

/-- Modelled from the spec: the runner Stats object (its file is not
under src) holds one count per outcome kind plus the Run counter of
executed stages. -/
structure Stats where
  success : Nat
  failed : Nat
  skipped : Nat
  ignored : Nat
  forceFail : Nat
  forcePass : Nat
  run : Nat
deriving DecidableEq, Repr

/-- The all-zero Stats value a run starts from. -/
def Stats.empty : Stats := ⟨0, 0, 0, 0, 0, 0, 0⟩

/-- Modelled from the spec: addResultToStats (runner stats file, not
under src) increments the per-outcome count of the classified result; the
Run counter is incremented separately by RunStage (line 187). -/
def addResultToStats (result : TestResult) (s : Stats) : Stats :=
  match result with
  | .Success => { s with success := s.success + 1 }
  | .Failed => { s with failed := s.failed + 1 }
  | .Skipped => { s with skipped := s.skipped + 1 }
  | .Ignored => { s with ignored := s.ignored + 1 }
  | .ForceFail => { s with forceFail := s.forceFail + 1 }
  | .ForcePass => { s with forcePass := s.forcePass + 1 }

/-- Sum of the per-outcome counts of a Stats value (the Run counter is a
separate field, not an outcome count). -/
def Stats.total (s : Stats) : Nat :=
  s.success + s.failed + s.skipped + s.ignored + s.forceFail + s.forcePass

/-- The Stats value a run trace produces, starting from Stats.empty. -/
def statsOfTrace (t : RunTrace) : Stats :=
  { t.recorded.foldl (fun s r => addResultToStats r s) Stats.empty with run := t.runInc }

namespace Waflog

/-- config.RunMode (config package, collaborator): default or cloud. -/
inductive RunMode where
  | defaultMode
  | cloudMode
deriving DecidableEq, Repr

/-- The parts of config.FTWConfig the waflog package reads. -/
structure Config where
  logFile : String
  runMode : RunMode
deriving DecidableEq, Repr

/-- FTWLogLines, src/waflog: the open file handle (os.File abstracted to
a unit handle), the file name, and the two markers. -/
structure FTWLogLines where
  logFile : Option Unit
  fileName : String
  startMarker : Option String
  endMarker : Option String
deriving DecidableEq, Repr

/-- The three exported functional options of src/waflog/waflog.go. -/
inductive FTWLogOption where
  | withStartMarker (m : String)
  | withEndMarker (m : String)
  | withLogFile (name : String)
deriving DecidableEq, Repr

/-- Application of one functional option, src/waflog/waflog.go
lines 41-60 (markers are lower-cased via bytes.ToLower). -/
def applyOption (ll : FTWLogLines) : FTWLogOption → FTWLogLines
  | .withStartMarker m => { ll with startMarker := some m.toLower }
  | .withEndMarker m => { ll with endMarker := some m.toLower }
  | .withLogFile n => { ll with fileName := n }

/-- The two error shapes NewFTWLogLines can return: the wrapped open
error (line 31) and errNoLogFile (lines 12 and 35). -/
inductive WaflogError where
  | cannotOpen (osErr : String)
  | noLogFile
deriving DecidableEq, Repr

/-- openLogFile, src/waflog/waflog.go lines 70-80: in default run mode,
with a non-empty file name and no file yet open, the os.Open outcome
(supplied by osOpen) decides; otherwise a no-op.  On an open error the
handle stays nil, as os.Open returns a nil file with its error. -/
def openLogFile (cfg : Config) (osOpen : String → Except String Unit)
    (ll : FTWLogLines) : Except String FTWLogLines :=
  if cfg.runMode == RunMode.defaultMode then
    if ll.fileName != "" && ll.logFile.isNone then
      match osOpen ll.fileName with
      | .ok h => .ok { ll with logFile := some h }
      | .error e => .error e
    else .ok ll
  else .ok ll

/-- NewFTWLogLines lines 16-28: the base struct (file name from the
global config, nothing open, no markers) with every option applied. -/
def optionedLogLines (cfg : Config) (opts : List FTWLogOption) : FTWLogLines :=
  opts.foldl applyOption
    { logFile := none, fileName := cfg.logFile, startMarker := none, endMarker := none }

/-- NewFTWLogLines, src/waflog/waflog.go lines 15-39. -/
def NewFTWLogLines (cfg : Config) (osOpen : String → Except String Unit)
    (opts : List FTWLogOption) : Except WaflogError FTWLogLines :=
  match openLogFile cfg osOpen (optionedLogLines cfg opts) with
  | .error e => .error (.cannotOpen e)
  | .ok ll2 =>
    if cfg.runMode == RunMode.defaultMode && ll2.logFile.isNone then .error .noLogFile
    else .ok ll2

/-- Cleanup, src/waflog/waflog.go lines 63-68: number of file closes one
call performs. -/
def cleanupCloses (ll : FTWLogLines) : Nat :=
  if ll.logFile.isSome then 1 else 0

end Waflog

/-- Resource-relevant observables of one whole Run call: whether a log
file handle was opened, how many times cleanLogs ran, and whether the run
returned an error. -/
structure RunResult where
  fileOpened : Bool
  cleanupCalls : Nat
  aborted : Bool
deriving DecidableEq, Repr

/-- Run, src/unnamed/part_001 lines 24-64: the `defer cleanLogs(logLines)`
at line 61 is only registered after the test loop and printSummary have
completed, so every early `return` (log-reader construction failure,
client construction failure, and any RunTest error at line 55) leaves the
run without any cleanup call; only the normal return at line 63 runs the
deferred cleanup, once. -/
def Run (cfg : Waflog.Config) (osOpen : String → Except String Unit)
    (newClientErr : Bool) (ov : InputOverrides) (inc exc : Option (String → Bool))
    (tests : List FTWTestM) : RunResult :=
  match Waflog.NewFTWLogLines cfg osOpen [Waflog.FTWLogOption.withLogFile cfg.logFile] with
  | .error _ => { fileOpened := false, cleanupCalls := 0, aborted := true }
  | .ok ll =>
    if newClientErr then
      { fileOpened := ll.logFile.isSome, cleanupCalls := 0, aborted := true }
    else
      let t := runTests ll.fileName ov inc exc tests
      match t.err with
      | some _ => { fileOpened := ll.logFile.isSome, cleanupCalls := 0, aborted := true }
      | none => { fileOpened := ll.logFile.isSome, cleanupCalls := 1, aborted := false }

/-- Result evaluation as the spec words it (section 4.4 of the spec): on
a transport error the expected-error flag alone decides; otherwise the
four checks — status in the expected set, body contains, log window
contains, log window does not contain — decide, Success when some check
is satisfied (with no response, the response-based checks read false),
Failed when none is. -/
def checkResultSpec (c : FTWCheck) (response : Option Response) (responseErr : Bool) :
    TestResult :=
  if responseErr then
    if c.assertExpectError then .Success else .Failed
  else
    let statusOk := match response with | some r => c.assertStatus r.statusCode | none => false
    let bodyOk := match response with | some r => c.assertResponseContains r.body | none => false
    if statusOk || bodyOk || c.assertLogContains || c.assertNoLogContains then .Success
    else .Failed

/-- Skip decision as the spec words it (section 4.5): disabled is always
skipped; an inclusion match always runs; a configured inclusion filter
not matching skips; otherwise skip exactly when the exclusion filter
matches. -/
def skipSpec (inc exc : Option (String → Bool)) (title : String) (enabled : Bool) : Bool :=
  if !enabled then true
  else
    match inc with
    | some f => if f title then false else true
    | none => optMatch exc title

/-- Number of request-body forms set on an input. -/
def bodyFormsSet (i : Input) : Nat :=
  (if isNotEmpty i.data then 1 else 0) +
  (if i.encodedRequest != "" then 1 else 0) +
  (if i.rawRequest != "" then 1 else 0)

/-- True exactly on the two results the normal execution path records and
counts into Stats.Run. -/
def countsTowardRun (r : TestResult) : Bool :=
  r == TestResult.Success || r == TestResult.Failed

/-- C1: checkResult applies the precedence-ordered policy: a transport
error with a declared error expectation is Success, a transport error
without one is Failed, and otherwise the status, body, log-contains and
log-not-contains checks decide in order, the first satisfied one giving
Success and none satisfied giving Failed. -/
theorem C1_checkResult_precedence (c : FTWCheck) (response : Option Response)
    (responseErr : Bool) :
    checkResult c response responseErr = checkResultSpec c response responseErr := by
  cases responseErr with
  | true => cases c.assertExpectError <;> simp [checkResult, checkResultSpec]
  | false =>
    cases response with
    | none =>
      cases h3 : c.assertLogContains <;> cases h4 : c.assertNoLogContains <;>
        simp [checkResult, checkResultSpec, h3, h4]
    | some r =>
      cases h1 : c.assertStatus r.statusCode <;>
        cases h2 : c.assertResponseContains r.body <;>
        cases h3 : c.assertLogContains <;> cases h4 : c.assertNoLogContains <;>
        simp [checkResult, checkResultSpec, h1, h2, h3, h4]

/-- C5: the skip decision: a disabled test is always skipped; an
inclusion-filter match always runs; with an inclusion filter configured
and not matching, the test is skipped; otherwise the test is skipped
exactly when the exclusion filter matches.  A skipped test case records
Skipped and invokes no stage. -/
theorem C5_skip_policy (inc exc : Option (String → Bool)) (title : String)
    (enabled : Bool) (logFileName : String) (ov : InputOverrides)
    (c : TestCaseM) (rest : List TestCaseM) :
    needToSkipTest inc exc title enabled = skipSpec inc exc title enabled ∧
    (needToSkipTest inc exc c.title enabled = true →
      runTestCases logFileName ov inc exc enabled (c :: rest) =
        { recorded :=
            TestResult.Skipped :: (runTestCases logFileName ov inc exc enabled rest).recorded,
          runInc := (runTestCases logFileName ov inc exc enabled rest).runInc,
          stagesExecuted := (runTestCases logFileName ov inc exc enabled rest).stagesExecuted,
          err := (runTestCases logFileName ov inc exc enabled rest).err }) := by
  constructor
  · cases enabled with
    | false => simp [needToSkipTest, skipSpec]
    | true =>
      cases inc with
      | none => cases exc <;> simp [needToSkipTest, skipSpec, optMatch]
      | some f =>
        cases hf : f title <;> cases exc <;>
          simp [needToSkipTest, skipSpec, optMatch, hf]
  · intro h
    simp [runTestCases, h]

/-- Witness for C5 at a concrete disabled test case. -/
theorem C5_skip_policy_witness :
    needToSkipTest none none "942100-1" false = skipSpec none none "942100-1" false ∧
    runTestCases "waf.log" ⟨none, none, none⟩ none none false
        [{ title := "942100-1", stages := [] }] =
      { recorded := [TestResult.Skipped], runInc := 0, stagesExecuted := 0, err := none } := by
  have h := C5_skip_policy none none "942100-1" false "waf.log" ⟨none, none, none⟩
    { title := "942100-1", stages := [] } []
  refine ⟨h.1, ?_⟩
  have h2 := h.2 (by rfl)
  simpa [runTestCases, RunTrace.empty] using h2

/-- applyInputOverride never touches the three request-body fields. -/
lemma applyInputOverride_preserves_body (ov : InputOverrides) (t : Input) :
    (applyInputOverride ov t).1.data = t.data ∧
    (applyInputOverride ov t).1.encodedRequest = t.encodedRequest ∧
    (applyInputOverride ov t).1.rawRequest = t.rawRequest := by
  rcases ov with ⟨p, d, pr⟩
  cases p <;> cases d <;> cases pr <;> simp [applyInputOverride]

/-- The sanity check is insensitive to the global input overrides. -/
lemma checkTestSanity_override (ov : InputOverrides) (t : Input) :
    checkTestSanity (applyInputOverride ov t).1 = checkTestSanity t := by
  have h := applyInputOverride_preserves_body ov t
  simp [checkTestSanity, h.1, h.2.1, h.2.2]

/-- The sanity check fires exactly when at least two body forms are set. -/
lemma checkTestSanity_iff (i : Input) :
    checkTestSanity i = true ↔ 2 ≤ bodyFormsSet i := by
  cases h1 : isNotEmpty i.data <;> cases h2 : i.encodedRequest != "" <;>
    cases h3 : i.rawRequest != "" <;>
    simp [checkTestSanity, bodyFormsSet, h1, h2, h3]

/-- The finish phase returns no error. -/
lemma stageFinish_err (s : StageSpec) (sm em : Option (Option String)) (ops : Nat) :
    (stageFinish s sm em ops).err = none := rfl

/-- The end-marker phase never returns the bad-test-request error. -/
lemma stageEndPhase_err_ne (fileName : String) (s : StageSpec)
    (sm : Option (Option String)) (ops : Nat) :
    (stageEndPhase fileName s sm ops).err ≠ some RunnerError.badTestRequest := by
  unfold stageEndPhase
  split
  · simp [stageFinish]
  · split
    · split
      · simp
      · simp [stageFinish]
    · simp [stageFinish]

/-- The request phase never returns the bad-test-request error. -/
lemma stageRequestPhase_err_ne (fileName : String) (s : StageSpec)
    (sm : Option (Option String)) (ops : Nat) :
    (stageRequestPhase fileName s sm ops).err ≠ some RunnerError.badTestRequest := by
  unfold stageRequestPhase
  split
  · simp
  · split
    · simp
    · exact stageEndPhase_err_ne fileName s sm (ops + 2)

/-- The start-marker phase never returns the bad-test-request error. -/
lemma stageStartPhase_err_ne (fileName : String) (s : StageSpec) :
    (stageStartPhase fileName s).err ≠ some RunnerError.badTestRequest := by
  unfold stageStartPhase
  split
  · exact stageRequestPhase_err_ne fileName s none 0
  · split
    · split
      · simp
      · exact stageRequestPhase_err_ne fileName s (some none) _
    · exact stageRequestPhase_err_ne fileName s (some (some _)) _

/-- C8: RunStage returns the bad-test-request error exactly when more
than one of the three request-body forms of the stage input is set; with
at most one form set the sanity check passes and no path of the stage can
produce that error. -/
theorem C8_bad_test_request (logFileName : String) (ov : InputOverrides) (title : String)
    (s : StageSpec) :
    (checkTestSanity s.input = true ↔ 2 ≤ bodyFormsSet s.input) ∧
    ((RunStage logFileName ov title s).err = some RunnerError.badTestRequest ↔
      2 ≤ bodyFormsSet s.input) := by
  refine ⟨checkTestSanity_iff s.input, ?_⟩
  unfold RunStage
  by_cases h : checkTestSanity s.input = true
  · simp [checkTestSanity_override, h, (checkTestSanity_iff s.input).mp h]
  · have hb : ¬ (2 ≤ bodyFormsSet s.input) := fun hc => h ((checkTestSanity_iff s.input).mpr hc)
    simp only [checkTestSanity_override, Bool.not_eq_true] at h ⊢
    simp only [h, if_false, Bool.false_eq_true]
    constructor
    · intro hcontra
      split at hcontra
      · simp at hcontra
      · exact absurd hcontra (stageStartPhase_err_ne logFileName s)
    · intro hc
      exact absurd hc hb

/-- Reading the key just written returns the written value. -/
lemma Header.get_set_same (h : Header) (k v : String) :
    Header.get (Header.set h k v) k = v := by
  simp [Header.get, Header.set, List.find?_cons]

/-- Writing one key does not change lookups of a different key. -/
lemma Header.get_set_ne (h : Header) (k v k2 : String) (hne : k2 ≠ k) :
    Header.get (Header.set h k v) k2 = Header.get h k2 := by
  have hne2 : (k == k2) = false := beq_eq_false_iff_ne.mpr fun hc => hne hc.symm
  have hfilter : List.find? (fun e => e.1 == k2) (List.filter (fun e => e.1 != k) h) =
      List.find? (fun e => e.1 == k2) h := by
    induction h with
    | nil => rfl
    | cons e rest ih =>
      by_cases hek : e.1 = k
      · have h1 : (e.1 != k) = false := by simp [hek]
        have h2 : (e.1 == k2) = false := by
          apply beq_eq_false_iff_ne.mpr
          rw [hek]
          exact fun hc => hne hc.symm
        rw [List.filter_cons, h1]
        rw [List.find?_cons, h2]
        simpa using ih
      · have h1 : (e.1 != k) = true := by simp [hek]
        rw [List.filter_cons, h1]
        simp only [if_true]
        rw [List.find?_cons, List.find?_cons]
        cases h2 : (e.1 == k2) with
        | true => rfl
        | false => exact ih
  simp only [Header.get, Header.set, List.find?_cons, hne2]
  rw [hfilter]

/-- The Host-injection step of applyInputOverride: it writes the address
into the Host header exactly when none is present, and no other key
changes. -/
lemma hostInject_get (h0 : Header) (a : String) :
    Header.get (if Header.get h0 "Host" == "" then Header.set h0 "Host" a else h0) "Host" =
      (if Header.get h0 "Host" = "" then a else Header.get h0 "Host") ∧
    (∀ k, k ≠ "Host" →
      Header.get (if Header.get h0 "Host" == "" then Header.set h0 "Host" a else h0) k =
        Header.get h0 k) := by
  by_cases hh : Header.get h0 "Host" = ""
  · constructor
    · simp [hh, Header.get_set_same]
    · intro k hk
      simp [hh, Header.get_set_ne h0 "Host" a k hk]
  · constructor
    · simp [hh]
    · intro k hk
      simp [hh]

/-- C10: applyInputOverride always returns a nil error (so the
error-logging branch in RunStage at lines 112-114 is unreachable), writes
Port, DestAddr and Protocol only when the corresponding override is set,
injects the Host header only when the address override is set and no Host
header was present, and leaves every other input field and every other
header entry unchanged. -/
theorem C10_applyInputOverride (ov : InputOverrides) (t : Input) :
    (applyInputOverride ov t).2 = none ∧
    (applyInputOverride ov t).1.data = t.data ∧
    (applyInputOverride ov t).1.encodedRequest = t.encodedRequest ∧
    (applyInputOverride ov t).1.rawRequest = t.rawRequest ∧
    (applyInputOverride ov t).1.method = t.method ∧
    (applyInputOverride ov t).1.uri = t.uri ∧
    (applyInputOverride ov t).1.version = t.version ∧
    (applyInputOverride ov t).1.stopMagic = t.stopMagic ∧
    (applyInputOverride ov t).1.port =
      (match ov.port with | some p => some p | none => t.port) ∧
    (applyInputOverride ov t).1.destAddr =
      (match ov.destAddr with | some a => some a | none => t.destAddr) ∧
    (applyInputOverride ov t).1.protocol =
      (match ov.protocol with | some p => some p | none => t.protocol) ∧
    (ov.destAddr = none → (applyInputOverride ov t).1.headers = t.headers) ∧
    (∀ a, ov.destAddr = some a →
      Header.get ((applyInputOverride ov t).1.headers.getD []) "Host" =
        (if Header.get (t.headers.getD []) "Host" = "" then a
         else Header.get (t.headers.getD []) "Host") ∧
      (∀ k, k ≠ "Host" →
        Header.get ((applyInputOverride ov t).1.headers.getD []) k =
          Header.get (t.headers.getD []) k)) := by
  rcases ov with ⟨p, d, pr⟩
  cases d with
  | none => cases p <;> cases pr <;> simp [applyInputOverride]
  | some a0 =>
    cases p <;> cases pr <;>
      (refine ⟨rfl, rfl, rfl, rfl, rfl, rfl, rfl, rfl, rfl, rfl, rfl,
         fun h => Option.noConfusion h, ?_⟩
       intro a ha
       injection ha with ha
       subst ha
       exact hostInject_get (t.headers.getD []) a0)

/-- An input with no field set: no body form, no headers. -/
def inputZero : Input :=
  { destAddr := none, port := none, protocol := none, method := none, uri := none,
    version := none, headers := none, data := none, encodedRequest := "",
    rawRequest := "", stopMagic := false }

/-- A check with no forced results, non-cloud mode, and every assertion
reading false. -/
def checkPlain : FTWCheck :=
  { cloudMode := false, forcedIgnore := fun _ => false, forcedFail := fun _ => false,
    forcedPass := fun _ => false, assertExpectError := false,
    assertStatus := fun _ => false, assertResponseContains := fun _ => false,
    assertLogContains := false, assertNoLogContains := false }

/-- Concrete input for the C10 witness: an Accept header, no Host. -/
def c10Input : Input :=
  { inputZero with
    destAddr := some "orig.example.com",
    headers := some [("Accept", "text/plain")] }

/-- Concrete overrides for the C10 witness: port and address overridden. -/
def c10Ov : InputOverrides := ⟨some 8080, some "waf.example.com", none⟩

/-- Witness for C10 at a concrete override and input: nil error, Host
header injected from the override, other header unchanged. -/
theorem C10_applyInputOverride_witness :
    (applyInputOverride c10Ov c10Input).2 = none ∧
    Header.get ((applyInputOverride c10Ov c10Input).1.headers.getD []) "Host" =
      "waf.example.com" ∧
    Header.get ((applyInputOverride c10Ov c10Input).1.headers.getD []) "Accept" =
      Header.get (c10Input.headers.getD []) "Accept" := by
  have h := C10_applyInputOverride c10Ov c10Input
  have h13 := h.2.2.2.2.2.2.2.2.2.2.2.2 "waf.example.com" rfl
  have hempty : Header.get (c10Input.headers.getD []) "Host" = "" := by decide
  refine ⟨h.1, ?_, h13.2 "Accept" (by decide)⟩
  rw [h13.1, if_pos hempty]

/-- If every attempt in the remaining budget reports no marker, the loop
exhausts its fuel and fails with the marker-not-found error. -/
lemma markAndFlushAux_noMarker (f : String) (attempts : Nat → ProbeAttempt) :
    ∀ fuel i, (∀ k, k < fuel → attempts (i + k) = ProbeAttempt.noMarker) →
      markAndFlushAux f attempts i fuel = .error (.markerNotFound f) := by
  intro fuel
  induction fuel with
  | zero => intro i _; rfl
  | succ n ih =>
    intro i h
    have h0 : attempts i = ProbeAttempt.noMarker := by
      have := h 0 (Nat.succ_pos n)
      simpa using this
    unfold markAndFlushAux
    rw [h0]
    exact ih (i + 1) (fun k hk => by
      have hh := h (k + 1) (by omega)
      have harith : i + (k + 1) = i + 1 + k := by omega
      rwa [harith] at hh)

/-- If the first marker observation happens at offset j inside the
remaining budget, with only no-marker attempts before it, the loop
returns that line. -/
lemma markAndFlushAux_found (f : String) (attempts : Nat → ProbeAttempt) :
    ∀ j fuel i m, j < fuel → attempts (i + j) = ProbeAttempt.markerFound m →
      (∀ k, k < j → attempts (i + k) = ProbeAttempt.noMarker) →
      markAndFlushAux f attempts i fuel = .ok m := by
  intro j
  induction j with
  | zero =>
    intro fuel i m hj hfound _
    cases fuel with
    | zero => omega
    | succ n =>
      have h0 : attempts i = ProbeAttempt.markerFound m := by simpa using hfound
      unfold markAndFlushAux
      rw [h0]
  | succ n ih =>
    intro fuel i m hj hfound hprev
    cases fuel with
    | zero => omega
    | succ fl =>
      have h0 : attempts i = ProbeAttempt.noMarker := by
        have := hprev 0 (Nat.succ_pos n)
        simpa using this
      unfold markAndFlushAux
      rw [h0]
      apply ih fl (i + 1) m (by omega)
      · have harith : i + 1 + n = i + (n + 1) := by omega
        rw [harith]
        exact hfound
      · intro k hk
        have hh := hprev (k + 1) (by omega)
        have harith : i + (k + 1) = i + 1 + k := by omega
        rwa [harith] at hh

/-- C4: markAndFlush returns the matched line with no error as soon as
the marker is observed on a probe attempt; if all 20 attempts complete
without observing it, it fails with the marker-not-found error whose
message names the consulted log file; and a stage that does not expect an
error aborts with that error wrapped as the start-marker failure. -/
theorem C4_marker_budget (f logFileName : String) (attempts : Nat → ProbeAttempt)
    (ov : InputOverrides) (title : String) (s : StageSpec) :
    ((∀ i, i < retryBudget → attempts i = ProbeAttempt.noMarker) →
       markAndFlush f attempts = .error (.markerNotFound f) ∧
       MarkerFlushError.message (.markerNotFound f) = markerNotFoundHead ++ f) ∧
    (∀ j m, j < retryBudget → attempts j = ProbeAttempt.markerFound m →
       (∀ i, i < j → attempts i = ProbeAttempt.noMarker) →
       markAndFlush f attempts = .ok m) ∧
    (s.check.cloudMode = false → s.expectError = false →
       checkTestSanity s.input = false →
       overriddenTestResult s.check title = TestResult.Failed →
       (∀ i, i < retryBudget → s.startAttempts i = ProbeAttempt.noMarker) →
       (RunStage logFileName ov title s).err =
         some (.startMarkerFail (.markerNotFound logFileName))) := by
  refine ⟨?_, ?_, ?_⟩
  · intro h
    exact ⟨markAndFlushAux_noMarker f attempts retryBudget 0
      (fun k hk => by simpa using h k hk), rfl⟩
  · intro j m hj hf hprev
    exact markAndFlushAux_found f attempts j retryBudget 0 m hj (by simpa using hf)
      (fun k hk => by simpa using hprev k hk)
  · intro hc he hsan hovr hno
    have hmf : markAndFlush logFileName s.startAttempts =
        .error (.markerNotFound logFileName) :=
      markAndFlushAux_noMarker logFileName s.startAttempts retryBudget 0
        (fun k hk => by simpa using hno k hk)
    simp [RunStage, checkTestSanity_override, hsan, hovr, stageStartPhase, hc, hmf, he]

/-- Concrete stage for the C4 witness: non-cloud, no expected error, no
override, probes that never observe the marker. -/
def c4Stage : StageSpec :=
  { input := inputZero, expectError := false, check := checkPlain,
    startAttempts := fun _ => ProbeAttempt.noMarker,
    endAttempts := fun _ => ProbeAttempt.noMarker,
    connErr := false, responseErr := false, response := none, rtt := 0, stageTime := 0 }

/-- Witness for C4: budget exhaustion on a constant no-marker probe
stream, immediate success when the first probe observes the marker, and
the stage-level abort with the marker-not-found error. -/
theorem C4_marker_budget_witness :
    markAndFlush "modsec.log" (fun _ => ProbeAttempt.noMarker) =
      .error (.markerNotFound "modsec.log") ∧
    markAndFlush "modsec.log" (fun _ => ProbeAttempt.markerFound "matched line") =
      .ok "matched line" ∧
    (RunStage "modsec.log" ⟨none, none, none⟩ "944100-1" c4Stage).err =
      some (.startMarkerFail (.markerNotFound "modsec.log")) := by
  have h := C4_marker_budget "modsec.log" "modsec.log" (fun _ => ProbeAttempt.noMarker)
    ⟨none, none, none⟩ "944100-1" c4Stage
  have h2 := C4_marker_budget "modsec.log" "modsec.log"
    (fun _ => ProbeAttempt.markerFound "matched line") ⟨none, none, none⟩ "944100-1" c4Stage
  refine ⟨(h.1 (fun i _ => rfl)).1, ?_, ?_⟩
  · exact h2.2.1 0 "matched line" (by decide) rfl
      (fun i hi => absurd hi (Nat.not_lt_zero i))
  · exact h.2.2 rfl rfl rfl rfl (fun i _ => rfl)

/-- C6: the forced-result precedence is ignore, then fail, then pass,
with Failed the no-override sentinel; a stage whose test id has an
override is recorded with that result, zero displayed durations, no
network operation and no marker call, and returns no error; without an
override the normal execution pipeline runs. -/
theorem C6_forced_result (logFileName : String) (ov : InputOverrides) (title : String)
    (s : StageSpec) :
    (s.check.forcedIgnore title = true →
      overriddenTestResult s.check title = TestResult.Ignored) ∧
    (s.check.forcedIgnore title = false → s.check.forcedFail title = true →
      overriddenTestResult s.check title = TestResult.ForceFail) ∧
    (s.check.forcedIgnore title = false → s.check.forcedFail title = false →
      s.check.forcedPass title = true →
      overriddenTestResult s.check title = TestResult.ForcePass) ∧
    (s.check.forcedIgnore title = false → s.check.forcedFail title = false →
      s.check.forcedPass title = false →
      overriddenTestResult s.check title = TestResult.Failed) ∧
    (checkTestSanity s.input = false →
      overriddenTestResult s.check title ≠ TestResult.Failed →
      RunStage logFileName ov title s =
        { err := none, recorded := [overriddenTestResult s.check title], runInc := 0,
          networkOps := 0, startMarkerSet := none, endMarkerSet := none,
          displayedTime := some (0, 0) }) ∧
    (checkTestSanity s.input = false →
      overriddenTestResult s.check title = TestResult.Failed →
      RunStage logFileName ov title s = stageStartPhase logFileName s) := by
  refine ⟨?_, ?_, ?_, ?_, ?_, ?_⟩
  · intro h1
    simp [overriddenTestResult, h1]
  · intro h1 h2
    simp [overriddenTestResult, h1, h2]
  · intro h1 h2 h3
    simp [overriddenTestResult, h1, h2, h3]
  · intro h1 h2 h3
    simp [overriddenTestResult, h1, h2, h3]
  · intro hsan hovr
    simp [RunStage, checkTestSanity_override, hsan, hovr]
  · intro hsan hovr
    simp [RunStage, checkTestSanity_override, hsan, hovr]

/-- Concrete stage for the C6 witness: the test id is configured for
forced fail. -/
def c6Stage : StageSpec :=
  { input := inputZero, expectError := false,
    check := { checkPlain with forcedFail := fun _ => true },
    startAttempts := fun _ => ProbeAttempt.noMarker,
    endAttempts := fun _ => ProbeAttempt.noMarker,
    connErr := false, responseErr := false, response := none, rtt := 7, stageTime := 9 }

/-- Witness for C6 at a concrete forced-fail stage: recorded ForceFail,
no network operation, markers untouched, zero displayed durations. -/
theorem C6_forced_result_witness :
    RunStage "modsec_audit.log" ⟨none, none, none⟩ "913100-2" c6Stage =
      { err := none, recorded := [TestResult.ForceFail], runInc := 0, networkOps := 0,
        startMarkerSet := none, endMarkerSet := none, displayedTime := some (0, 0) } := by
  have h := (C6_forced_result "modsec_audit.log" ⟨none, none, none⟩ "913100-2"
    c6Stage).2.2.2.2.1 rfl (by decide)
  simpa using h

/-- With an error expected, the end-marker phase never aborts. -/
lemma stageEndPhase_err_expect (fileName : String) (s : StageSpec)
    (sm : Option (Option String)) (ops : Nat) (he : s.expectError = true) :
    (stageEndPhase fileName s sm ops).err = none := by
  unfold stageEndPhase
  split
  · rfl
  · split
    · rw [he]
      simp [stageFinish]
    · rfl

/-- With an error expected, the request phase never aborts. -/
lemma stageRequestPhase_err_expect (fileName : String) (s : StageSpec)
    (sm : Option (Option String)) (ops : Nat) (he : s.expectError = true) :
    (stageRequestPhase fileName s sm ops).err = none := by
  unfold stageRequestPhase
  rw [he]
  simp only [Bool.not_true, Bool.and_false, Bool.false_eq_true, if_false]
  exact stageEndPhase_err_expect fileName s sm (ops + 2) he

/-- With an error expected, the start-marker phase never aborts. -/
lemma stageStartPhase_err_expect (fileName : String) (s : StageSpec)
    (he : s.expectError = true) :
    (stageStartPhase fileName s).err = none := by
  unfold stageStartPhase
  split
  · exact stageRequestPhase_err_expect fileName s none 0 he
  · split
    · rw [he]
      simp only [Bool.not_true, Bool.false_eq_true, if_false]
      exact stageRequestPhase_err_expect fileName s (some none) _ he
    · exact stageRequestPhase_err_expect fileName s (some (some _)) _ he

/-- C7: in non-cloud mode a start-marker acquisition failure aborts the
stage with a descriptive error exactly when the stage does not expect an
error; when it does, execution continues as a no-op with the marker set
to nil, and the stage can never abort.  The same expected-error condition
governs the end-marker acquisition after the real request. -/
theorem C7_marker_tolerance (logFileName : String) (ov : InputOverrides) (title : String)
    (s : StageSpec) (e : MarkerFlushError) (sm : Option (Option String)) (ops : Nat) :
    (s.check.cloudMode = false → s.expectError = false →
       checkTestSanity s.input = false →
       overriddenTestResult s.check title = TestResult.Failed →
       markAndFlush logFileName s.startAttempts = .error e →
       (RunStage logFileName ov title s).err = some (.startMarkerFail e) ∧
       (RunStage logFileName ov title s).recorded = []) ∧
    (s.check.cloudMode = false → s.expectError = true →
       checkTestSanity s.input = false →
       overriddenTestResult s.check title = TestResult.Failed →
       markAndFlush logFileName s.startAttempts = .error e →
       RunStage logFileName ov title s =
         stageRequestPhase logFileName s (some none) (markAndFlushOps s.startAttempts)) ∧
    (s.expectError = true → checkTestSanity s.input = false →
       overriddenTestResult s.check title = TestResult.Failed →
       (RunStage logFileName ov title s).err = none) ∧
    (s.check.cloudMode = false → s.expectError = false →
       markAndFlush logFileName s.endAttempts = .error e →
       (stageEndPhase logFileName s sm ops).err = some (.endMarkerFail e)) ∧
    (s.check.cloudMode = false → s.expectError = true →
       markAndFlush logFileName s.endAttempts = .error e →
       stageEndPhase logFileName s sm ops =
         stageFinish s sm (some none) (ops + markAndFlushOps s.endAttempts)) := by
  refine ⟨?_, ?_, ?_, ?_, ?_⟩
  · intro hc he hsan hovr hmf
    constructor <;>
      simp [RunStage, checkTestSanity_override, hsan, hovr, stageStartPhase, hc, hmf, he]
  · intro hc he hsan hovr hmf
    simp [RunStage, checkTestSanity_override, hsan, hovr, stageStartPhase, hc, hmf, he]
  · intro he hsan hovr
    simp only [RunStage, checkTestSanity_override, hsan, Bool.false_eq_true, if_false,
      hovr, ne_eq, not_true_eq_false]
    exact stageStartPhase_err_expect logFileName s he
  · intro hc he hmf
    simp [stageEndPhase, hc, hmf, he]
  · intro hc he hmf
    simp [stageEndPhase, hc, hmf, he]

/-- Concrete stage for the C7 witness: error expected, probes never
observe the marker. -/
def c7Stage : StageSpec :=
  { input := inputZero, expectError := true, check := checkPlain,
    startAttempts := fun _ => ProbeAttempt.noMarker,
    endAttempts := fun _ => ProbeAttempt.noMarker,
    connErr := false, responseErr := false, response := none, rtt := 0, stageTime := 0 }

/-- Witness for C7: with an expected error, a failed start-marker
acquisition is tolerated — the stage continues into the request phase
with a nil marker and returns no error. -/
theorem C7_marker_tolerance_witness :
    RunStage "audit.log" ⟨none, none, none⟩ "932100-1" c7Stage =
      stageRequestPhase "audit.log" c7Stage (some none)
        (markAndFlushOps c7Stage.startAttempts) ∧
    (RunStage "audit.log" ⟨none, none, none⟩ "932100-1" c7Stage).err = none := by
  have h := C7_marker_tolerance "audit.log" ⟨none, none, none⟩ "932100-1" c7Stage
    (.markerNotFound "audit.log") none 0
  exact ⟨h.2.1 rfl rfl rfl rfl rfl, h.2.2.1 rfl rfl rfl⟩

/-- A single functional option never touches the file handle. -/
lemma applyOption_logFile (ll : Waflog.FTWLogLines) (o : Waflog.FTWLogOption) :
    (Waflog.applyOption ll o).logFile = ll.logFile := by
  cases o <;> rfl

/-- Folding functional options never touches the file handle. -/
lemma foldl_applyOption_logFile (opts : List Waflog.FTWLogOption) :
    ∀ ll : Waflog.FTWLogLines, (opts.foldl Waflog.applyOption ll).logFile = ll.logFile := by
  induction opts with
  | nil => intro ll; rfl
  | cons o rest ih =>
    intro ll
    rw [List.foldl_cons, ih, applyOption_logFile]

/-- No functional option opens a file: the optioned base struct has no
handle. -/
lemma optionedLogLines_logFile (cfg : Waflog.Config) (opts : List Waflog.FTWLogOption) :
    (Waflog.optionedLogLines cfg opts).logFile = none := by
  unfold Waflog.optionedLogLines
  rw [foldl_applyOption_logFile]

/-- C9: constructing the log reader: in cloud mode it always succeeds
with no file opened; in default mode an empty effective file name gives
the no-log-file error, a failing open gives the wrapped open error, and a
successful open gives a reader holding the open handle. -/
theorem C9_newFTWLogLines (cfg : Waflog.Config) (osOpen : String → Except String Unit)
    (opts : List Waflog.FTWLogOption) :
    (cfg.runMode = Waflog.RunMode.cloudMode →
       Waflog.NewFTWLogLines cfg osOpen opts = .ok (Waflog.optionedLogLines cfg opts) ∧
       (Waflog.optionedLogLines cfg opts).logFile = none) ∧
    (cfg.runMode = Waflog.RunMode.defaultMode →
       ((Waflog.optionedLogLines cfg opts).fileName = "" →
          Waflog.NewFTWLogLines cfg osOpen opts = .error .noLogFile) ∧
       (∀ e, (Waflog.optionedLogLines cfg opts).fileName ≠ "" →
          osOpen (Waflog.optionedLogLines cfg opts).fileName = .error e →
          Waflog.NewFTWLogLines cfg osOpen opts = .error (.cannotOpen e)) ∧
       (∀ h, (Waflog.optionedLogLines cfg opts).fileName ≠ "" →
          osOpen (Waflog.optionedLogLines cfg opts).fileName = .ok h →
          Waflog.NewFTWLogLines cfg osOpen opts =
            .ok { Waflog.optionedLogLines cfg opts with logFile := some h })) := by
  have hlog := optionedLogLines_logFile cfg opts
  constructor
  · intro hc
    have hmode : (cfg.runMode == Waflog.RunMode.defaultMode) = false := by
      rw [hc]
      rfl
    refine ⟨?_, hlog⟩
    unfold Waflog.NewFTWLogLines Waflog.openLogFile
    simp [hmode]
  · intro hd
    have hmode : (cfg.runMode == Waflog.RunMode.defaultMode) = true := by
      rw [hd]
      rfl
    refine ⟨?_, ?_, ?_⟩
    · intro hname
      unfold Waflog.NewFTWLogLines Waflog.openLogFile
      simp [hmode, hname, hlog]
    · intro e hname hopen
      have hname2 : ((Waflog.optionedLogLines cfg opts).fileName != "") = true := by
        simpa using hname
      unfold Waflog.NewFTWLogLines Waflog.openLogFile
      simp [hmode, hname2, hlog, hopen]
    · intro h hname hopen
      have hname2 : ((Waflog.optionedLogLines cfg opts).fileName != "") = true := by
        simpa using hname
      unfold Waflog.NewFTWLogLines Waflog.openLogFile
      simp [hmode, hname2, hlog, hopen]

/-- Witness for C9: the four construction outcomes at concrete
configurations — cloud mode, default mode with an empty name, default
mode with a failing open, default mode with a successful open. -/
theorem C9_newFTWLogLines_witness :
    Waflog.NewFTWLogLines ⟨"audit.log", Waflog.RunMode.cloudMode⟩
        (fun _ => .error "denied") [] =
      .ok (Waflog.optionedLogLines ⟨"audit.log", Waflog.RunMode.cloudMode⟩ []) ∧
    Waflog.NewFTWLogLines ⟨"", Waflog.RunMode.defaultMode⟩ (fun _ => .ok ()) [] =
      .error .noLogFile ∧
    Waflog.NewFTWLogLines ⟨"audit.log", Waflog.RunMode.defaultMode⟩
        (fun _ => .error "denied") [] =
      .error (.cannotOpen "denied") ∧
    Waflog.NewFTWLogLines ⟨"audit.log", Waflog.RunMode.defaultMode⟩ (fun _ => .ok ()) [] =
      .ok { Waflog.optionedLogLines ⟨"audit.log", Waflog.RunMode.defaultMode⟩ [] with
            logFile := some () } := by
  refine ⟨?_, ?_, ?_, ?_⟩
  · exact ((C9_newFTWLogLines ⟨"audit.log", Waflog.RunMode.cloudMode⟩
      (fun _ => .error "denied") []).1 rfl).1
  · exact ((C9_newFTWLogLines ⟨"", Waflog.RunMode.defaultMode⟩
      (fun _ => .ok ()) []).2 rfl).1 rfl
  · exact ((C9_newFTWLogLines ⟨"audit.log", Waflog.RunMode.defaultMode⟩
      (fun _ => .error "denied") []).2 rfl).2.1 "denied" (by decide) rfl
  · exact ((C9_newFTWLogLines ⟨"audit.log", Waflog.RunMode.defaultMode⟩
      (fun _ => .ok ()) []).2 rfl).2.2 () (by decide) rfl

/-- checkResult only ever classifies a stage as Success or Failed. -/
lemma checkResult_cases (c : FTWCheck) (response : Option Response) (responseErr : Bool) :
    checkResult c response responseErr = TestResult.Success ∨
    checkResult c response responseErr = TestResult.Failed := by
  unfold checkResult
  split
  · exact Or.inl rfl
  · split
    · exact Or.inr rfl
    · split
      · exact Or.inl rfl
      · split
        · exact Or.inl rfl
        · split
          · exact Or.inl rfl
          · split
            · exact Or.inl rfl
            · exact Or.inr rfl

/-- The result evaluator's outcome always counts toward Stats.Run. -/
lemma checkResult_counted (c : FTWCheck) (response : Option Response) (responseErr : Bool) :
    countsTowardRun (checkResult c response responseErr) = true := by
  rcases checkResult_cases c response responseErr with h | h <;> rw [h] <;> rfl

/-- A forced result is one of Ignored, ForceFail, ForcePass, or the
Failed sentinel. -/
lemma overridden_cases (c : FTWCheck) (id : String) :
    overriddenTestResult c id = TestResult.Ignored ∨
    overriddenTestResult c id = TestResult.ForceFail ∨
    overriddenTestResult c id = TestResult.ForcePass ∨
    overriddenTestResult c id = TestResult.Failed := by
  unfold overriddenTestResult
  split
  · exact Or.inl rfl
  · split
    · exact Or.inr (Or.inl rfl)
    · split
      · exact Or.inr (Or.inr (Or.inl rfl))
      · exact Or.inr (Or.inr (Or.inr rfl))

/-- The finish phase records exactly one counted result and one Run
increment. -/
lemma stageFinish_inv (s : StageSpec) (sm em : Option (Option String)) (ops : Nat) :
    (stageFinish s sm em ops).runInc =
      (stageFinish s sm em ops).recorded.countP countsTowardRun := by
  unfold stageFinish
  simp [List.countP_cons, checkResult_counted s.check s.response s.responseErr]

/-- Run-increment bookkeeping of the end-marker phase. -/
lemma stageEndPhase_inv (fileName : String) (s : StageSpec)
    (sm : Option (Option String)) (ops : Nat) :
    (stageEndPhase fileName s sm ops).runInc =
      (stageEndPhase fileName s sm ops).recorded.countP countsTowardRun := by
  unfold stageEndPhase
  split
  · apply stageFinish_inv
  · split
    · split
      · simp
      · apply stageFinish_inv
    · apply stageFinish_inv

/-- Run-increment bookkeeping of the request phase. -/
lemma stageRequestPhase_inv (fileName : String) (s : StageSpec)
    (sm : Option (Option String)) (ops : Nat) :
    (stageRequestPhase fileName s sm ops).runInc =
      (stageRequestPhase fileName s sm ops).recorded.countP countsTowardRun := by
  unfold stageRequestPhase
  split
  · simp
  · split
    · simp
    · apply stageEndPhase_inv

/-- Run-increment bookkeeping of the start-marker phase. -/
lemma stageStartPhase_inv (fileName : String) (s : StageSpec) :
    (stageStartPhase fileName s).runInc =
      (stageStartPhase fileName s).recorded.countP countsTowardRun := by
  unfold stageStartPhase
  split
  · apply stageRequestPhase_inv
  · split
    · split
      · simp
      · apply stageRequestPhase_inv
    · apply stageRequestPhase_inv

/-- Per-stage invariant: the Run increment of one stage equals the number
of Success/Failed results it records. -/
lemma runStage_inv (logFileName : String) (ov : InputOverrides) (title : String)
    (s : StageSpec) :
    (RunStage logFileName ov title s).runInc =
      (RunStage logFileName ov title s).recorded.countP countsTowardRun := by
  unfold RunStage
  split
  · simp
  · split
    · rename_i hovr
      rcases overridden_cases s.check title with ho | ho | ho | ho <;>
        simp [ho, countsTowardRun, List.countP_cons]
      exact absurd ho hovr
    · apply stageStartPhase_inv

/-- Stage-loop invariant for the Run counter. -/
lemma runStages_inv (logFileName : String) (ov : InputOverrides) (title : String)
    (stages : List StageSpec) :
    (runStages logFileName ov title stages).runInc =
      (runStages logFileName ov title stages).recorded.countP countsTowardRun := by
  induction stages with
  | nil => rfl
  | cons s rest ih =>
    unfold runStages
    cases h : (RunStage logFileName ov title s).err with
    | some e => exact runStage_inv logFileName ov title s
    | none => simp [List.countP_append, runStage_inv logFileName ov title s, ih]

/-- Test-case-loop invariant for the Run counter. -/
lemma runTestCases_inv (logFileName : String) (ov : InputOverrides)
    (inc exc : Option (String → Bool)) (enabled : Bool) (cases : List TestCaseM) :
    (runTestCases logFileName ov inc exc enabled cases).runInc =
      (runTestCases logFileName ov inc exc enabled cases).recorded.countP
        countsTowardRun := by
  induction cases with
  | nil => rfl
  | cons c rest ih =>
    unfold runTestCases
    split
    · simpa [List.countP_cons, countsTowardRun] using ih
    · cases h : (runStages logFileName ov c.title c.stages).err with
      | some e => exact runStages_inv logFileName ov c.title c.stages
      | none =>
        simp [List.countP_append, runStages_inv logFileName ov c.title c.stages, ih]

/-- Test-loop invariant for the Run counter. -/
lemma runTests_inv (logFileName : String) (ov : InputOverrides)
    (inc exc : Option (String → Bool)) (tests : List FTWTestM) :
    (runTests logFileName ov inc exc tests).runInc =
      (runTests logFileName ov inc exc tests).recorded.countP countsTowardRun := by
  induction tests with
  | nil => rfl
  | cons tc rest ih =>
    unfold runTests
    cases h : (RunTest logFileName ov inc exc tc).err with
    | some e => exact runTestCases_inv logFileName ov inc exc tc.enabled tc.cases
    | none =>
      simp [List.countP_append, ih]
      exact runTestCases_inv logFileName ov inc exc tc.enabled tc.cases

/-- Recording one result raises the per-outcome sum by exactly one. -/
lemma addResultToStats_total (r : TestResult) (s : Stats) :
    (addResultToStats r s).total = s.total + 1 := by
  cases r <;> simp [addResultToStats, Stats.total] <;> omega

/-- Folding a list of results raises the per-outcome sum by its length. -/
lemma foldl_addResult_total (l : List TestResult) :
    ∀ s : Stats, (l.foldl (fun s r => addResultToStats r s) s).total = s.total + l.length := by
  induction l with
  | nil => intro s; simp
  | cons r rest ih =>
    intro s
    rw [List.foldl_cons, ih, addResultToStats_total]
    simp only [List.length_cons]
    omega

/-- C2 (amended): at the end of every run, Stats.Run equals the number
of stages classified Success or Failed by the normal execution path —
forced results (Ignored, ForceFail, ForcePass) and Skipped tests are
excluded, because the forced-result short circuit returns before the
Stats.Run increment at line 187 — and the per-outcome counts of Stats
sum to the number of results recorded. -/
theorem C2_stats_amended (logFileName : String) (ov : InputOverrides)
    (inc exc : Option (String → Bool)) (tests : List FTWTestM) :
    (statsOfTrace (runTests logFileName ov inc exc tests)).run =
      (runTests logFileName ov inc exc tests).recorded.countP countsTowardRun ∧
    (statsOfTrace (runTests logFileName ov inc exc tests)).total =
      (runTests logFileName ov inc exc tests).recorded.length := by
  constructor
  · exact runTests_inv logFileName ov inc exc tests
  · show ((runTests logFileName ov inc exc tests).recorded.foldl
        (fun s r => addResultToStats r s) Stats.empty).total = _
    rw [foldl_addResult_total]
    simp [Stats.empty, Stats.total]

/-- Check configured for a forced fail: the C2 counterexample check. -/
def c2Check : FTWCheck := { checkPlain with forcedFail := fun _ => true }

/-- The C2 counterexample stage: id forced to fail. -/
def c2Stage : StageSpec :=
  { input := inputZero, expectError := false, check := c2Check,
    startAttempts := fun _ => ProbeAttempt.noMarker,
    endAttempts := fun _ => ProbeAttempt.noMarker,
    connErr := false, responseErr := false, response := none, rtt := 0, stageTime := 0 }

/-- The C2 counterexample run: one enabled test, one case, one stage. -/
def c2Tests : List FTWTestM :=
  [{ enabled := true, cases := [{ title := "911100-1", stages := [c2Stage] }] }]

/-- The counting predicate C2 claims for Stats.Run: Success, Failed,
ForceFail or ForcePass. -/
def claimCounted (r : TestResult) : Bool :=
  r == TestResult.Success || r == TestResult.Failed ||
  r == TestResult.ForceFail || r == TestResult.ForcePass

/-- Counterexample to C2 as stated: in a run with a single forced-fail
stage, one stage is classified ForceFail, but Stats.Run stays 0 — the
forced-result path returns before the Run increment. -/
theorem C2_counterexample :
    (statsOfTrace (runTests "waf.log" ⟨none, none, none⟩ none none c2Tests)).run ≠
      (runTests "waf.log" ⟨none, none, none⟩ none none c2Tests).recorded.countP
        claimCounted := by
  decide

/-- The C3 failing input: a stage whose input sets two body forms, which
makes RunStage return the bad-test-request error and abort the run. -/
def c3BadInput : Input :=
  { inputZero with
    data := some "foo=bar",
    encodedRequest := "Zm9vPWJhcg==" }

/-- The C3 failing stage. -/
def c3Stage : StageSpec :=
  { input := c3BadInput, expectError := false, check := checkPlain,
    startAttempts := fun _ => ProbeAttempt.noMarker,
    endAttempts := fun _ => ProbeAttempt.noMarker,
    connErr := false, responseErr := false, response := none, rtt := 0, stageTime := 0 }

/-- The C3 failing run: one enabled test whose only stage is malformed. -/
def c3Tests : List FTWTestM :=
  [{ enabled := true, cases := [{ title := "920100-1", stages := [c3Stage] }] }]

/-- The C3 configuration: default run mode with a named log file, whose
open succeeds, so a file handle is held when the run starts. -/
def c3Cfg : Waflog.Config :=
  { logFile := "/var/log/modsec_audit.log", runMode := Waflog.RunMode.defaultMode }

/-- C3 evaluation: on a run aborted by a stage error the opened log file
handle receives no cleanup call — the deferred cleanup at line 61 is
registered only after the test loop has completed, so the early return at
line 55 skips it — while a normally completing run cleans up exactly
once.  This contradicts the claim that the handle is closed exactly once
regardless of how the run terminates. -/
theorem C3_cleanup_skipped_on_abort :
    Run c3Cfg (fun _ => .ok ()) false ⟨none, none, none⟩ none none c3Tests =
      { fileOpened := true, cleanupCalls := 0, aborted := true } ∧
    Run c3Cfg (fun _ => .ok ()) false ⟨none, none, none⟩ none none [] =
      { fileOpened := true, cleanupCalls := 1, aborted := false } := by
  constructor <;> decide

end GoFtw
